import Mathlib

/-!
# Draw_Mesh (src/kernels/draw_mesh.cpp)

A shallow embedding of the mesh draw unit of the rasterizer: the four
operations `create`, `destroy`, `update` and `dispatch` of `Draw_Mesh`,
as state transformers over an explicit state that holds the unit (`this`),
the global `vk` context, the commands recorded so far, the calls made to the
device, and the contents of mapped memory.

Floating-point values are taken in an arbitrary field `K`, so matrix
arithmetic is exact.
-/

namespace DrawMesh

/-! ## Vulkan handles and enumerations -/

/-- Vulkan object handle; the value 0 is the null handle. -/
abbrev Handle := Nat

/-- The null handle of the Vulkan API. -/
def VK_NULL_HANDLE : Handle := 0

/-- Host address; the value 0 is the null pointer. -/
abbrev Ptr := Nat

/-- The null pointer. -/
def nullptr : Ptr := 0

/-- Shader stage bits used by this unit. -/
inductive VkShaderStageFlags where
  | VK_SHADER_STAGE_VERTEX_BIT
  | VK_SHADER_STAGE_FRAGMENT_BIT
  deriving DecidableEq, Repr

/-- Descriptor kinds used by this unit. -/
inductive VkDescriptorType where
  | VK_DESCRIPTOR_TYPE_SAMPLER
  | VK_DESCRIPTOR_TYPE_SAMPLED_IMAGE
  | VK_DESCRIPTOR_TYPE_UNIFORM_BUFFER
  deriving DecidableEq, Repr

/-- Buffer usage bits used by this unit. -/
inductive VkBufferUsageFlags where
  | VK_BUFFER_USAGE_UNIFORM_BUFFER_BIT
  deriving DecidableEq, Repr

/-- Image layouts used by this unit. -/
inductive VkImageLayout where
  | VK_IMAGE_LAYOUT_SHADER_READ_ONLY_OPTIMAL
  deriving DecidableEq, Repr

/-- Vertex attribute formats used by this unit. -/
inductive VkFormat where
  | VK_FORMAT_R32G32_SFLOAT
  | VK_FORMAT_R32G32B32_SFLOAT
  deriving DecidableEq, Repr

/-- Size in bytes of one element of a format: the number of 32-bit float
components times four. -/
def VkFormat.texel_size : VkFormat → Nat
  | .VK_FORMAT_R32G32_SFLOAT => 2 * 4
  | .VK_FORMAT_R32G32B32_SFLOAT => 3 * 4

/-- Vertex input rates. -/
inductive VkVertexInputRate where
  | VK_VERTEX_INPUT_RATE_VERTEX
  | VK_VERTEX_INPUT_RATE_INSTANCE
  deriving DecidableEq, Repr

/-- Index types. -/
inductive VkIndexType where
  | VK_INDEX_TYPE_UINT16
  | VK_INDEX_TYPE_UINT32
  deriving DecidableEq, Repr

/-- Pipeline bind points. -/
inductive VkPipelineBindPoint where
  | VK_PIPELINE_BIND_POINT_GRAPHICS
  | VK_PIPELINE_BIND_POINT_COMPUTE
  deriving DecidableEq, Repr

open VkShaderStageFlags VkDescriptorType VkBufferUsageFlags VkImageLayout
open VkFormat VkVertexInputRate VkIndexType VkPipelineBindPoint

/-! ## Byte layout of the C structures -/

/-- Size and alignment of a C type, in bytes. -/
structure CLayout where
  size : Nat
  align : Nat
  deriving DecidableEq, Repr

/-- The layout of `float`. -/
def c_float : CLayout := ⟨4, 4⟩

/-- The layout of an array `t[n]`. -/
def c_array (n : Nat) (t : CLayout) : CLayout := ⟨n * t.size, t.align⟩

/-- Round `off` up to the next multiple of `a`. -/
def align_up (off a : Nat) : Nat := (off + a - 1) / a * a

/-- Offsets of the members of a struct whose first free byte is `off`. -/
def member_offsets : Nat → List CLayout → List Nat
  | _, [] => []
  | off, t :: ts => align_up off t.align :: member_offsets (align_up off t.align + t.size) ts

/-- First free byte after the members of a struct whose first free byte is `off`. -/
def members_end : Nat → List CLayout → Nat
  | off, [] => off
  | off, t :: ts => members_end (align_up off t.align + t.size) ts

/-- Alignment of a struct: the largest alignment of a member. -/
def struct_align (ts : List CLayout) : Nat := ts.foldl (fun a t => max a t.align) 1

/-- The layout of a struct with the given members, in declaration order. -/
def c_struct (ts : List CLayout) : CLayout :=
  ⟨align_up (members_end 0 ts) (struct_align ts), struct_align ts⟩

/-- Modelled from the spec: `Matrix4x4` of matrix.h, which is not among the
sources: a 4x4 matrix of float32, sixteen floats stored contiguously. -/
def Matrix4x4_layout : CLayout := c_struct [c_array 4 (c_array 4 c_float)]

/-- Members of the anonymous-namespace `struct Uniform_Buffer`, in declaration order. -/
inductive Uniform_Buffer_Member where
  | model_view_proj
  | model_view
  deriving DecidableEq, Repr

/-- Layout of `struct Uniform_Buffer { Matrix4x4 model_view_proj; Matrix4x4 model_view; }`. -/
def Uniform_Buffer_members : List CLayout := [Matrix4x4_layout, Matrix4x4_layout]

/-- The value of `sizeof(Uniform_Buffer)`. -/
def sizeof_Uniform_Buffer : Nat := (c_struct Uniform_Buffer_members).size

/-- The value of `offsetof(Uniform_Buffer, m)`. -/
def Uniform_Buffer_Member.offsetof : Uniform_Buffer_Member → Nat
  | .model_view_proj => (member_offsets 0 Uniform_Buffer_members).getD 0 0
  | .model_view => (member_offsets 0 Uniform_Buffer_members).getD 1 0

/-- The size in bytes of member `m` of `Uniform_Buffer`. -/
def Uniform_Buffer_Member.sizeof : Uniform_Buffer_Member → Nat
  | .model_view_proj => Matrix4x4_layout.size
  | .model_view => Matrix4x4_layout.size

/-- Modelled from the spec: `Vector3` and `Vector2` of the math headers, which
are not among the sources: three, respectively two, float32 components. -/
def Vector3_layout : CLayout := c_struct [c_float, c_float, c_float]

/-- Modelled from the spec: see `Vector3_layout`. -/
def Vector2_layout : CLayout := c_struct [c_float, c_float]

/-- Modelled from the spec: `Vertex` of mesh.h, which is not among the sources:
position (3 float32), normal (3 float32), texture coordinate (2 float32). -/
def Vertex_members : List CLayout := [Vector3_layout, Vector3_layout, Vector2_layout]

/-- The value of `sizeof(Vertex)`. -/
def sizeof_Vertex : Nat := (c_struct Vertex_members).size

/-! ## Matrices -/

/-- Modelled from the spec: `Matrix4x4` of matrix.h, as a 4x4 array of scalars. -/
abbrev Matrix4x4 (K : Type) := Matrix (Fin 4) (Fin 4) K

/-- Modelled from the spec: `Matrix3x4` of matrix.h, a 3x4 affine transform. -/
abbrev Matrix3x4 (K : Type) := Matrix (Fin 3) (Fin 4) K

/-- Modelled from the spec: `Matrix4x4::identity` of matrix.h. -/
def Matrix4x4.identity {K : Type} [Field K] : Matrix4x4 K :=
  fun i j => if i = j then 1 else 0

/-- Modelled from the spec: `operator*(const Matrix4x4&, const Matrix3x4&)` of
matrix.h, which is not among the sources. The 3x4 operand is an affine
transform, that is a 4x4 matrix whose last row (0,0,0,1) is not stored, so the
fourth column of the left operand only contributes to the fourth column of the
product. -/
def Matrix4x4.mul34 {K : Type} [Field K] (m1 : Matrix4x4 K) (m2 : Matrix3x4 K) : Matrix4x4 K :=
  fun i j =>
    m1 i 0 * m2 0 j + m1 i 1 * m2 1 j + m1 i 2 * m2 2 j + (if j = 3 then m1 i 3 else 0)

/-- The 4x4 matrix a 3x4 affine transform stands for: the same three rows,
followed by the row (0,0,0,1). This is the spec side of the comparison: the
4x4 reading of an affine transform, against which the product the code
computes is compared. -/
def Matrix3x4.to4x4 {K : Type} [Field K] (m : Matrix3x4 K) : Matrix4x4 K :=
  fun i j => if h : i.val < 3 then m ⟨i.val, h⟩ j else if j = 3 then 1 else 0

/-- Modelled from the spec: the functions of the math library `update` calls
and whose definitions are not among the sources; they are parameters of the
model. -/
structure MathLib (K : Type) where
  perspective_transform_opengl_z01 : K → K → K → K → Matrix4x4 K
  radians : K → K

/-- The contents of `struct Uniform_Buffer`. -/
structure Uniform_Buffer (K : Type) where
  model_view_proj : Matrix4x4 K
  model_view : Matrix4x4 K

/-- Assignment to one member of a `Uniform_Buffer`. -/
def Uniform_Buffer.store {K : Type} (ub : Uniform_Buffer K) (m : Uniform_Buffer_Member)
    (v : Matrix4x4 K) : Uniform_Buffer K :=
  match m with
  | .model_view_proj => { ub with model_view_proj := v }
  | .model_view => { ub with model_view := v }

/-! ## The unit and the global context -/

/-- Modelled from the spec: `Vk_Buffer` of vk_utils.h, which is not among the
sources; the code only reads its `handle`. -/
structure Vk_Buffer where
  handle : Handle := VK_NULL_HANDLE
  deriving DecidableEq, Repr

/-- Modelled from the spec: the data members of `Draw_Mesh` (draw_mesh.h is not
among the sources), each with its empty default. -/
structure Draw_Mesh where
  uniform_buffer : Vk_Buffer := {}
  mapped_uniform_buffer : Ptr := nullptr
  descriptor_set_layout : Handle := VK_NULL_HANDLE
  pipeline_layout : Handle := VK_NULL_HANDLE
  pipeline : Handle := VK_NULL_HANDLE
  descriptor_set : Handle := VK_NULL_HANDLE
  deriving DecidableEq, Repr

/-- Modelled from the spec: `GPU_Mesh` of mesh.h, which is not among the
sources: vertex buffer, index buffer and index count. -/
structure GPU_Mesh where
  vertex_buffer : Vk_Buffer
  index_buffer : Vk_Buffer
  index_count : Nat
  deriving DecidableEq, Repr

/-- The `VkExtent2D` of the output surface. -/
structure VkExtent2D where
  width : Nat
  height : Nat
  deriving DecidableEq, Repr

/-- The members of the global `vk` context that the unit reads. -/
structure Vk_Instance where
  device : Handle
  descriptor_pool : Handle
  command_buffer : Handle
  surface_size : VkExtent2D
  deriving DecidableEq, Repr

/-- A command recorded into a command buffer, with the arguments of the
`vkCmd*` call that recorded it (the command buffer apart). -/
inductive Cmd where
  | vkCmdBindVertexBuffers (firstBinding bindingCount : Nat) (pBuffers : List Handle)
      (pOffsets : List Nat)
  | vkCmdBindIndexBuffer (buffer : Handle) (offset : Nat) (indexType : VkIndexType)
  | vkCmdPushConstants (layout : Handle) (stageFlags : VkShaderStageFlags) (offset size : Nat)
      (pValues : List Nat)
  | vkCmdBindDescriptorSets (pipelineBindPoint : VkPipelineBindPoint) (layout : Handle)
      (firstSet descriptorSetCount : Nat) (pDescriptorSets : List Handle)
      (dynamicOffsetCount : Nat) (pDynamicOffsets : List Nat)
  | vkCmdBindPipeline (pipelineBindPoint : VkPipelineBindPoint) (pipeline : Handle)
  | vkCmdDrawIndexed (indexCount instanceCount firstIndex : Nat) (vertexOffset : Int)
      (firstInstance : Nat)
  deriving DecidableEq, Repr

/-- The member `VkPushConstantRange` of the Vulkan API. -/
structure VkPushConstantRange where
  stageFlags : VkShaderStageFlags
  offset : Nat
  size : Nat
  deriving DecidableEq, Repr

/-- The members of `VkPipelineLayoutCreateInfo` that `create` sets; an array
given by pointer and count is the list of the pointed elements. -/
structure VkPipelineLayoutCreateInfo where
  setLayoutCount : Nat
  pSetLayouts : List Handle
  pushConstantRangeCount : Nat
  pPushConstantRanges : List VkPushConstantRange
  deriving DecidableEq, Repr

/-- The members of `VkDescriptorSetAllocateInfo` that `create` sets. -/
structure VkDescriptorSetAllocateInfo where
  descriptorPool : Handle
  descriptorSetCount : Nat
  pSetLayouts : List Handle
  deriving DecidableEq, Repr

/-- One slot of a descriptor set layout. -/
structure VkDescriptorSetLayoutBinding where
  binding : Nat
  descriptorType : VkDescriptorType
  descriptorCount : Nat
  stageFlags : VkShaderStageFlags
  deriving DecidableEq, Repr

/-- The resource a descriptor write refers to. -/
inductive Descriptor_Info where
  | buffer_info (buffer : Handle) (offset range : Nat)
  | image_info (imageView : Handle) (imageLayout : VkImageLayout)
  | sampler_info (sampler : Handle)
  deriving DecidableEq, Repr

/-- The descriptor kind a resource reference can populate. -/
def Descriptor_Info.kind : Descriptor_Info → VkDescriptorType
  | .buffer_info _ _ _ => VK_DESCRIPTOR_TYPE_UNIFORM_BUFFER
  | .image_info _ _ => VK_DESCRIPTOR_TYPE_SAMPLED_IMAGE
  | .sampler_info _ => VK_DESCRIPTOR_TYPE_SAMPLER

/-- One write of a resource into a slot of a descriptor set. -/
structure VkWriteDescriptorSet where
  dstSet : Handle
  dstBinding : Nat
  descriptorCount : Nat
  descriptorType : VkDescriptorType
  info : Descriptor_Info
  deriving DecidableEq, Repr

/-- The Vulkan structure `VkVertexInputBindingDescription`. -/
structure VkVertexInputBindingDescription where
  binding : Nat
  stride : Nat
  inputRate : VkVertexInputRate
  deriving DecidableEq, Repr

/-- The Vulkan structure `VkVertexInputAttributeDescription`. -/
structure VkVertexInputAttributeDescription where
  location : Nat
  binding : Nat
  format : VkFormat
  offset : Nat
  deriving DecidableEq, Repr

/-- Modelled from the spec: `Vk_Graphics_Pipeline_State` of vk_utils.h, which is
not among the sources: the vertex input arrays with their counts, and the rest
of the fixed-function state, which `create` leaves at its defaults. -/
structure Vk_Graphics_Pipeline_State where
  vertex_bindings : Nat → VkVertexInputBindingDescription
  vertex_binding_count : Nat
  vertex_attributes : Nat → VkVertexInputAttributeDescription
  vertex_attribute_count : Nat
  fixed_function : Nat

/-- The vertex buffer bindings a pipeline is built with: the first
`vertex_binding_count` elements of the array. -/
def Vk_Graphics_Pipeline_State.bindings (st : Vk_Graphics_Pipeline_State) :
    List VkVertexInputBindingDescription :=
  (List.range st.vertex_binding_count).map st.vertex_bindings

/-- The vertex attributes a pipeline is built with: the first
`vertex_attribute_count` elements of the array. -/
def Vk_Graphics_Pipeline_State.attributes (st : Vk_Graphics_Pipeline_State) :
    List VkVertexInputAttributeDescription :=
  (List.range st.vertex_attribute_count).map st.vertex_attributes

/-- A call that reaches the device, with its arguments. -/
inductive DeviceCall where
  | vk_create_mapped_buffer (size : Nat) (usage : VkBufferUsageFlags) (name : String)
  | create_descriptor_set_layout (bindings : List VkDescriptorSetLayoutBinding) (name : String)
  | vkCreatePipelineLayout (device : Handle) (create_info : VkPipelineLayoutCreateInfo)
  | vk_set_debug_name (object : Handle) (name : String)
  | vk_load_spirv (path : String)
  | vk_create_graphics_pipeline (state : Vk_Graphics_Pipeline_State)
      (pipeline_layout render_pass vertex_shader fragment_shader : Handle)
  | vkDestroyShaderModule (device shader_module : Handle)
  | vkAllocateDescriptorSets (device : Handle) (desc : VkDescriptorSetAllocateInfo)
  | vkUpdateDescriptorSets (writes : List VkWriteDescriptorSet)
  | destroy_buffer (buffer : Handle)
  | vkDestroyDescriptorSetLayout (device descriptor_set_layout : Handle)
  | vkDestroyPipelineLayout (device pipeline_layout : Handle)
  | vkDestroyPipeline (device pipeline : Handle)

/-- The live object a call releases, if any: a destroy call given the null
handle releases nothing. -/
def DeviceCall.released : DeviceCall → Option Handle
  | .vkDestroyShaderModule _ h => if h = VK_NULL_HANDLE then none else some h
  | .destroy_buffer h => if h = VK_NULL_HANDLE then none else some h
  | .vkDestroyDescriptorSetLayout _ h => if h = VK_NULL_HANDLE then none else some h
  | .vkDestroyPipelineLayout _ h => if h = VK_NULL_HANDLE then none else some h
  | .vkDestroyPipeline _ h => if h = VK_NULL_HANDLE then none else some h
  | _ => none

/-- A store of the host through a mapped pointer: the address of the mapped
region, and the offset and size in bytes of the bytes written in it. -/
structure Host_Write where
  address : Ptr
  offset : Nat
  size : Nat
  deriving DecidableEq, Repr

/-- The state the operations of the unit act on. -/
structure State (K : Type) where
  /-- The unit itself (`*this`). -/
  self : Draw_Mesh
  /-- The global context `vk`. -/
  vk : Vk_Instance
  /-- The commands recorded so far, each with the command buffer it went to. -/
  commands : List (Handle × Cmd)
  /-- The calls made to the device so far. -/
  device_calls : List DeviceCall
  /-- The device objects that are alive. -/
  live : List Handle
  /-- The contents of host-visible memory, by address. -/
  memory : Ptr → Uniform_Buffer K
  /-- The byte ranges the host has stored to so far, in order. -/
  host_writes : List Host_Write

/-- Record a command into the command buffer `vk.command_buffer`. -/
def State.record {K : Type} (s : State K) (c : Cmd) : State K :=
  { s with commands := s.commands ++ [(s.vk.command_buffer, c)] }

/-- Make a call to the device. A call that releases an object removes it from
the live objects. -/
def State.call {K : Type} (s : State K) (c : DeviceCall) : State K :=
  { s with
    device_calls := s.device_calls ++ [c]
    live := match c.released with
      | some h => s.live.erase h
      | none => s.live }

/-- A device object comes to life. -/
def State.acquire {K : Type} (s : State K) (h : Handle) : State K :=
  { s with live := s.live ++ [h] }

/-- Conversion of `bool` to `uint32_t`. -/
def bool_to_uint32 (b : Bool) : Nat := (if b then 1 else 0) % 2 ^ 32

/-! ## dispatch (lines 108-119) -/

/-- The method `Draw_Mesh::dispatch`. -/
def Draw_Mesh.dispatch {K : Type} (s : State K) (mesh : GPU_Mesh) (show_texture_lod : Bool) :
    State K :=
  let zero_offset : Nat := 0
  let s := s.record (.vkCmdBindVertexBuffers 0 1 [mesh.vertex_buffer.handle] [zero_offset])
  let s := s.record (.vkCmdBindIndexBuffer mesh.index_buffer.handle 0 VK_INDEX_TYPE_UINT32)
  let show_texture_lod_uint : Nat := bool_to_uint32 show_texture_lod
  let s := s.record (.vkCmdPushConstants s.self.pipeline_layout VK_SHADER_STAGE_FRAGMENT_BIT 0 4
    [show_texture_lod_uint])
  let s := s.record (.vkCmdBindDescriptorSets VK_PIPELINE_BIND_POINT_GRAPHICS
    s.self.pipeline_layout 0 1 [s.self.descriptor_set] 0 [])
  let s := s.record (.vkCmdBindPipeline VK_PIPELINE_BIND_POINT_GRAPHICS s.self.pipeline)
  s.record (.vkCmdDrawIndexed mesh.index_count 1 0 0 0)

/-! ## update (lines 99-106) -/

/-- Assignment to a member of the `Uniform_Buffer` at address `p`: the member
takes the value `v`, and the bytes stored to are those of the member, from
`offsetof` of the member on and `sizeof` of the member many. -/
def State.store {K : Type} (s : State K) (p : Ptr) (m : Uniform_Buffer_Member)
    (v : Matrix4x4 K) : State K :=
  { s with
    memory := Function.update s.memory p ((s.memory p).store m v)
    host_writes := s.host_writes ++ [⟨p, m.offsetof, m.sizeof⟩] }

/-- The method `Draw_Mesh::update`. The float literals 45.0f, 0.1f and 50.0f are
the field elements 45, 1/10 and 50, and the casts of the surface width and
height to float are the casts of the natural numbers into the field. The
stores go through `mapped_uniform_buffer`, as in the source, which does not
check the pointer. -/
def Draw_Mesh.update {K : Type} [Field K] (lib : MathLib K) (s : State K)
    (model_transform view_transform : Matrix3x4 K) : State K :=
  let aspect_ratio : K := (s.vk.surface_size.width : K) / (s.vk.surface_size.height : K)
  let proj := lib.perspective_transform_opengl_z01 (lib.radians 45) aspect_ratio (1 / 10) 50
  let model_view := (Matrix4x4.identity.mul34 view_transform).mul34 model_transform
  let model_view_proj := (proj.mul34 view_transform).mul34 model_transform
  let s := s.store s.self.mapped_uniform_buffer .model_view_proj model_view_proj
  s.store s.self.mapped_uniform_buffer .model_view model_view

/-! ## destroy (lines 91-97) -/

/-- Modelled from the spec: `Vk_Buffer::destroy` of vk_utils, which is not among
the sources: releases the buffer and leaves it empty. -/
def Vk_Buffer.destroy {K : Type} (b : Vk_Buffer) (s : State K) : Vk_Buffer × State K :=
  ({}, s.call (.destroy_buffer b.handle))

/-- The method `Draw_Mesh::destroy`. -/
def Draw_Mesh.destroy {K : Type} (s : State K) : State K :=
  let r := s.self.uniform_buffer.destroy s
  let s := { r.2 with self := { r.2.self with uniform_buffer := r.1 } }
  let s := s.call (.vkDestroyDescriptorSetLayout s.vk.device s.self.descriptor_set_layout)
  let s := s.call (.vkDestroyPipelineLayout s.vk.device s.self.pipeline_layout)
  let s := s.call (.vkDestroyPipeline s.vk.device s.self.pipeline)
  { s with self := {} }

/-! ## create (lines 13-89) -/

/-- A Vulkan result code; the error codes are the negative ones. -/
abbrev VkResult := Int

/-- The result code of a call that succeeded. -/
def VK_SUCCESS : VkResult := 0

/-- Modelled from the spec: the macro `VK_CHECK` of vk_utils.h, which is not
among the sources: a failed call is fatal, the operation does not return. -/
def VK_CHECK {α : Type} (result : VkResult) (continuation : Option α) : Option α :=
  if result < 0 then none else continuation

/-- What the device and the helpers around it hand back to `create`: the
objects they created, and the result codes of the two calls `create` checks. -/
structure Driver where
  mapped_buffer : Vk_Buffer
  mapped_address : Ptr
  descriptor_set_layout : Handle
  pipeline_layout_result : VkResult
  pipeline_layout : Handle
  vertex_shader : Handle
  fragment_shader : Handle
  pipeline : Handle
  descriptor_set_result : VkResult
  descriptor_set : Handle
  deriving DecidableEq, Repr

/-- Modelled from the spec: the builder `Descriptor_Set_Layout` of vk_utils.h,
which is not among the sources: the binding slots declared so far, in order. -/
structure Descriptor_Set_Layout where
  bindings : List VkDescriptorSetLayoutBinding := []
  deriving DecidableEq, Repr

/-- Modelled from the spec: declares a uniform buffer slot. -/
def Descriptor_Set_Layout.uniform_buffer (b : Descriptor_Set_Layout) (binding : Nat)
    (stage_flags : VkShaderStageFlags) : Descriptor_Set_Layout :=
  { bindings := b.bindings ++ [⟨binding, VK_DESCRIPTOR_TYPE_UNIFORM_BUFFER, 1, stage_flags⟩] }

/-- Modelled from the spec: declares a sampled image slot. -/
def Descriptor_Set_Layout.sampled_image (b : Descriptor_Set_Layout) (binding : Nat)
    (stage_flags : VkShaderStageFlags) : Descriptor_Set_Layout :=
  { bindings := b.bindings ++ [⟨binding, VK_DESCRIPTOR_TYPE_SAMPLED_IMAGE, 1, stage_flags⟩] }

/-- Modelled from the spec: declares a sampler slot. -/
def Descriptor_Set_Layout.sampler (b : Descriptor_Set_Layout) (binding : Nat)
    (stage_flags : VkShaderStageFlags) : Descriptor_Set_Layout :=
  { bindings := b.bindings ++ [⟨binding, VK_DESCRIPTOR_TYPE_SAMPLER, 1, stage_flags⟩] }

/-- Modelled from the spec: creates the layout object from the declared slots;
`handle` is the object the device hands back. -/
def Descriptor_Set_Layout.create {K : Type} (b : Descriptor_Set_Layout) (name : String)
    (handle : Handle) (s : State K) : Handle × State K :=
  (handle, (s.call (.create_descriptor_set_layout b.bindings name)).acquire handle)

/-- Modelled from the spec: the writer `Descriptor_Writes` of vk_utils.h, which
is not among the sources: the descriptor set written to and the writes queued
so far, in order. -/
structure Descriptor_Writes where
  descriptor_set : Handle
  writes : List VkWriteDescriptorSet := []
  deriving DecidableEq, Repr

/-- Modelled from the spec: queues the write of a uniform buffer range. -/
def Descriptor_Writes.uniform_buffer (w : Descriptor_Writes) (binding : Nat)
    (buffer_handle : Handle) (offset range : Nat) : Descriptor_Writes :=
  { w with writes := w.writes ++ [⟨w.descriptor_set, binding, 1,
      VK_DESCRIPTOR_TYPE_UNIFORM_BUFFER, .buffer_info buffer_handle offset range⟩] }

/-- Modelled from the spec: queues the write of a sampled image. -/
def Descriptor_Writes.sampled_image (w : Descriptor_Writes) (binding : Nat)
    (image_view : Handle) (layout : VkImageLayout) : Descriptor_Writes :=
  { w with writes := w.writes ++ [⟨w.descriptor_set, binding, 1,
      VK_DESCRIPTOR_TYPE_SAMPLED_IMAGE, .image_info image_view layout⟩] }

/-- Modelled from the spec: queues the write of a sampler. -/
def Descriptor_Writes.sampler (w : Descriptor_Writes) (binding : Nat)
    (sampler : Handle) : Descriptor_Writes :=
  { w with writes := w.writes ++ [⟨w.descriptor_set, binding, 1,
      VK_DESCRIPTOR_TYPE_SAMPLER, .sampler_info sampler⟩] }

/-- Modelled from the spec: the queued writes reach the device when the writer
goes out of scope. -/
def Descriptor_Writes.commit {K : Type} (w : Descriptor_Writes) (s : State K) : State K :=
  s.call (.vkUpdateDescriptorSets w.writes)

/-- Assignment to a member of `state.vertex_bindings[i]`. -/
def Vk_Graphics_Pipeline_State.set_binding (state : Vk_Graphics_Pipeline_State) (i : Nat)
    (f : VkVertexInputBindingDescription → VkVertexInputBindingDescription) :
    Vk_Graphics_Pipeline_State :=
  let element := f (state.vertex_bindings i)
  { state with vertex_bindings := Function.update state.vertex_bindings i element }

/-- Assignment to a member of `state.vertex_attributes[i]`. -/
def Vk_Graphics_Pipeline_State.set_attribute (state : Vk_Graphics_Pipeline_State) (i : Nat)
    (f : VkVertexInputAttributeDescription → VkVertexInputAttributeDescription) :
    Vk_Graphics_Pipeline_State :=
  let element := f (state.vertex_attributes i)
  { state with vertex_attributes := Function.update state.vertex_attributes i element }

/-- The vertex input state `create` sets up on the default pipeline state
(lines 47-68), one assignment per line of the source. -/
def vertex_input_state (state : Vk_Graphics_Pipeline_State) : Vk_Graphics_Pipeline_State :=
  -- VkVertexInputBindingDescription
  let state := state.set_binding 0 (fun b => { b with binding := 0 })
  let state := state.set_binding 0 (fun b => { b with stride := sizeof_Vertex })
  let state := state.set_binding 0 (fun b => { b with inputRate := VK_VERTEX_INPUT_RATE_VERTEX })
  let state := { state with vertex_binding_count := 1 }
  -- VkVertexInputAttributeDescription
  let state := state.set_attribute 0 (fun a => { a with location := 0 })
  let state := state.set_attribute 0 (fun a => { a with binding := 0 })
  let state := state.set_attribute 0 (fun a => { a with format := VK_FORMAT_R32G32B32_SFLOAT })
  let state := state.set_attribute 0 (fun a => { a with offset := 0 })
  let state := state.set_attribute 1 (fun a => { a with location := 1 })
  let state := state.set_attribute 1 (fun a => { a with binding := 0 })
  let state := state.set_attribute 1 (fun a => { a with format := VK_FORMAT_R32G32B32_SFLOAT })
  let state := state.set_attribute 1 (fun a => { a with offset := 12 })
  let state := state.set_attribute 2 (fun a => { a with location := 2 })
  let state := state.set_attribute 2 (fun a => { a with binding := 0 })
  let state := state.set_attribute 2 (fun a => { a with format := VK_FORMAT_R32G32_SFLOAT })
  let state := state.set_attribute 2 (fun a => { a with offset := 24 })
  { state with vertex_attribute_count := 3 }

/-- Assignment to data members of the unit. -/
def State.assign {K : Type} (s : State K) (f : Draw_Mesh → Draw_Mesh) : State K :=
  { s with self := f s.self }

/-- Lines 14-15 of `create`: the mapped uniform buffer. -/
def create_uniform_buffer {K : Type} (drv : Driver) (s : State K) : State K :=
  let s := s.call (.vk_create_mapped_buffer sizeof_Uniform_Buffer
    VK_BUFFER_USAGE_UNIFORM_BUFFER_BIT "raster_uniform_buffer")
  let s := s.acquire drv.mapped_buffer.handle
  let s := s.assign (fun d => { d with mapped_uniform_buffer := drv.mapped_address })
  s.assign (fun d => { d with uniform_buffer := drv.mapped_buffer })

/-- Lines 17-21 of `create`: the descriptor set layout. -/
def create_descriptor_set_layout {K : Type} (drv : Driver) (s : State K) : State K :=
  let r := Descriptor_Set_Layout.create
    (Descriptor_Set_Layout.sampler
      (Descriptor_Set_Layout.sampled_image
        (Descriptor_Set_Layout.uniform_buffer {} 0 VK_SHADER_STAGE_VERTEX_BIT)
        1 VK_SHADER_STAGE_FRAGMENT_BIT)
      2 VK_SHADER_STAGE_FRAGMENT_BIT)
    "raster_set_layout" drv.descriptor_set_layout s
  r.2.assign (fun d => { d with descriptor_set_layout := r.1 })

/-- Lines 24-38 of `create`: the pipeline layout. -/
def create_pipeline_layout {K : Type} (drv : Driver) (s : State K) : Option (State K) :=
  let push_constant_range : VkPushConstantRange :=
    { stageFlags := VK_SHADER_STAGE_FRAGMENT_BIT, offset := 0, size := 4 }
  let create_info : VkPipelineLayoutCreateInfo :=
    { setLayoutCount := 1
      pSetLayouts := [s.self.descriptor_set_layout]
      pushConstantRangeCount := 1
      pPushConstantRanges := [push_constant_range] }
  let s := s.call (.vkCreatePipelineLayout s.vk.device create_info)
  VK_CHECK drv.pipeline_layout_result <|
    let s := s.acquire drv.pipeline_layout
    let s := s.assign (fun d => { d with pipeline_layout := drv.pipeline_layout })
    some (s.call (.vk_set_debug_name s.self.pipeline_layout "raster_pipeline_layout"))

/-- Lines 41-74 of `create`: the pipeline. `default_state` is the value of
`get_default_graphics_pipeline_state()`. -/
def create_pipeline {K : Type} (drv : Driver) (default_state : Vk_Graphics_Pipeline_State)
    (s : State K) (render_pass : Handle) : State K :=
  let s := (s.call (.vk_load_spirv "spirv/raster_mesh.vert.spv")).acquire drv.vertex_shader
  let vertex_shader := drv.vertex_shader
  let s := (s.call (.vk_load_spirv "spirv/raster_mesh.frag.spv")).acquire drv.fragment_shader
  let fragment_shader := drv.fragment_shader
  let state := vertex_input_state default_state
  let s := s.call (.vk_create_graphics_pipeline state s.self.pipeline_layout render_pass
    vertex_shader fragment_shader)
  let s := s.acquire drv.pipeline
  let s := s.assign (fun d => { d with pipeline := drv.pipeline })
  let s := s.call (.vkDestroyShaderModule s.vk.device vertex_shader)
  s.call (.vkDestroyShaderModule s.vk.device fragment_shader)

/-- Lines 77-88 of `create`: the descriptor set and the writes into it. -/
def create_descriptor_sets {K : Type} (drv : Driver) (s : State K)
    (texture_view sampler : Handle) : Option (State K) :=
  let desc : VkDescriptorSetAllocateInfo :=
    { descriptorPool := s.vk.descriptor_pool
      descriptorSetCount := 1
      pSetLayouts := [s.self.descriptor_set_layout] }
  let s := s.call (.vkAllocateDescriptorSets s.vk.device desc)
  VK_CHECK drv.descriptor_set_result <|
    let s := s.acquire drv.descriptor_set
    let s := s.assign (fun d => { d with descriptor_set := drv.descriptor_set })
    let w := Descriptor_Writes.sampler
      (Descriptor_Writes.sampled_image
        (Descriptor_Writes.uniform_buffer { descriptor_set := s.self.descriptor_set }
          0 s.self.uniform_buffer.handle 0 sizeof_Uniform_Buffer)
        1 texture_view VK_IMAGE_LAYOUT_SHADER_READ_ONLY_OPTIMAL)
      2 sampler
    some (w.commit s)

/-- The method `Draw_Mesh::create`. `drv` is what the device hands back and
`default_state` is the value of `get_default_graphics_pipeline_state()`. The
result is `none` when a checked call fails, which is fatal. -/
def Draw_Mesh.create {K : Type} (drv : Driver) (default_state : Vk_Graphics_Pipeline_State)
    (s : State K) (render_pass texture_view sampler : Handle) : Option (State K) :=
  let s := create_uniform_buffer drv s
  let s := create_descriptor_set_layout drv s
  (create_pipeline_layout drv s).bind fun s =>
    let s := create_pipeline drv default_state s render_pass
    create_descriptor_sets drv s texture_view sampler

/-! ## Observations on the traces -/

/-- The surface is resized (by the windowing layer, outside the unit). -/
def State.resize {K : Type} (s : State K) (size : VkExtent2D) : State K :=
  { s with vk := { s.vk with surface_size := size } }

/-- The commands recorded between state `s` and a later state `t`. -/
def new_commands {K : Type} (s t : State K) : List (Handle × Cmd) :=
  t.commands.drop s.commands.length

/-- The host stores made between state `s` and a later state `t`. -/
def new_host_writes {K : Type} (s t : State K) : List Host_Write :=
  t.host_writes.drop s.host_writes.length

/-- The device calls made between state `s` and a later state `t`. -/
def new_calls {K : Type} (s t : State K) : List DeviceCall :=
  t.device_calls.drop s.device_calls.length

/-- The push-constant updates among recorded commands: pipeline layout, stage
flags, offset, size and the 32-bit words pushed. -/
def pushed_constants (cs : List (Handle × Cmd)) :
    List (Handle × VkShaderStageFlags × Nat × Nat × List Nat) :=
  cs.filterMap fun c =>
    match c.2 with
    | .vkCmdPushConstants layout stageFlags offset size pValues =>
      some (layout, stageFlags, offset, size, pValues)
    | _ => none

/-- The pipeline layouts the descriptor set binds among recorded commands use. -/
def descriptor_bind_layouts (cs : List (Handle × Cmd)) : List Handle :=
  cs.filterMap fun c =>
    match c.2 with
    | .vkCmdBindDescriptorSets _ layout _ _ _ _ _ => some layout
    | _ => none

/-- The sizes of the mapped buffers requested among device calls. -/
def mapped_buffer_sizes (cs : List DeviceCall) : List Nat :=
  cs.filterMap fun c =>
    match c with
    | .vk_create_mapped_buffer size _ _ => some size
    | _ => none

/-- The descriptor set layouts created among device calls, each as its slots. -/
def set_layouts_created (cs : List DeviceCall) : List (List VkDescriptorSetLayoutBinding) :=
  cs.filterMap fun c =>
    match c with
    | .create_descriptor_set_layout bindings _ => some bindings
    | _ => none

/-- The pipeline layouts created among device calls. -/
def pipeline_layouts_created (cs : List DeviceCall) : List VkPipelineLayoutCreateInfo :=
  cs.filterMap fun c =>
    match c with
    | .vkCreatePipelineLayout _ create_info => some create_info
    | _ => none

/-- The pipelines created among device calls, each as its pipeline state. -/
def pipelines_created (cs : List DeviceCall) : List Vk_Graphics_Pipeline_State :=
  cs.filterMap fun c =>
    match c with
    | .vk_create_graphics_pipeline state _ _ _ _ => some state
    | _ => none

/-- The descriptor set allocations among device calls. -/
def descriptor_set_allocations (cs : List DeviceCall) : List VkDescriptorSetAllocateInfo :=
  cs.filterMap fun c =>
    match c with
    | .vkAllocateDescriptorSets _ desc => some desc
    | _ => none

/-- The descriptor writes among device calls, in order. -/
def descriptor_writes (cs : List DeviceCall) : List VkWriteDescriptorSet :=
  (cs.filterMap fun c =>
    match c with
    | .vkUpdateDescriptorSets writes => some writes
    | _ => none).flatten

/-- The buffer ranges among descriptor writes: slot, buffer, offset and range. -/
def buffer_ranges (ws : List VkWriteDescriptorSet) : List (Nat × Handle × Nat × Nat) :=
  ws.filterMap fun w =>
    match w.info with
    | .buffer_info buffer offset range => some (w.dstBinding, buffer, offset, range)
    | _ => none

/-- The device calls `create` makes when both checked calls succeed. -/
def create_calls (drv : Driver) (default_state : Vk_Graphics_Pipeline_State) (vk : Vk_Instance)
    (render_pass texture_view sampler : Handle) : List DeviceCall :=
  [.vk_create_mapped_buffer sizeof_Uniform_Buffer VK_BUFFER_USAGE_UNIFORM_BUFFER_BIT
      "raster_uniform_buffer",
   .create_descriptor_set_layout
      [⟨0, VK_DESCRIPTOR_TYPE_UNIFORM_BUFFER, 1, VK_SHADER_STAGE_VERTEX_BIT⟩,
       ⟨1, VK_DESCRIPTOR_TYPE_SAMPLED_IMAGE, 1, VK_SHADER_STAGE_FRAGMENT_BIT⟩,
       ⟨2, VK_DESCRIPTOR_TYPE_SAMPLER, 1, VK_SHADER_STAGE_FRAGMENT_BIT⟩]
      "raster_set_layout",
   .vkCreatePipelineLayout vk.device
      ⟨1, [drv.descriptor_set_layout], 1, [⟨VK_SHADER_STAGE_FRAGMENT_BIT, 0, 4⟩]⟩,
   .vk_set_debug_name drv.pipeline_layout "raster_pipeline_layout",
   .vk_load_spirv "spirv/raster_mesh.vert.spv",
   .vk_load_spirv "spirv/raster_mesh.frag.spv",
   .vk_create_graphics_pipeline (vertex_input_state default_state) drv.pipeline_layout
      render_pass drv.vertex_shader drv.fragment_shader,
   .vkDestroyShaderModule vk.device drv.vertex_shader,
   .vkDestroyShaderModule vk.device drv.fragment_shader,
   .vkAllocateDescriptorSets vk.device ⟨vk.descriptor_pool, 1, [drv.descriptor_set_layout]⟩,
   .vkUpdateDescriptorSets
      [⟨drv.descriptor_set, 0, 1, VK_DESCRIPTOR_TYPE_UNIFORM_BUFFER,
          .buffer_info drv.mapped_buffer.handle 0 sizeof_Uniform_Buffer⟩,
       ⟨drv.descriptor_set, 1, 1, VK_DESCRIPTOR_TYPE_SAMPLED_IMAGE,
          .image_info texture_view VK_IMAGE_LAYOUT_SHADER_READ_ONLY_OPTIMAL⟩,
       ⟨drv.descriptor_set, 2, 1, VK_DESCRIPTOR_TYPE_SAMPLER, .sampler_info sampler⟩]]

/-! ## Sample inputs -/

/-- A math library over the rationals, to evaluate the model on: degrees to
radians with 22/7 for pi, and a projection matrix that takes half the field of
view for its tangent. -/
def sample_lib : MathLib ℚ where
  radians := fun degrees => degrees * (22 / 7) / 180
  perspective_transform_opengl_z01 := fun fovy aspect near far =>
    fun i j =>
      if i = 0 ∧ j = 0 then 1 / (aspect * (fovy / 2))
      else if i = 1 ∧ j = 1 then -(1 / (fovy / 2))
      else if i = 2 ∧ j = 2 then -far / (far - near)
      else if i = 2 ∧ j = 3 then -(far * near) / (far - near)
      else if i = 3 ∧ j = 2 then -1
      else 0

/-- The identity transform. -/
def sample_identity : Matrix3x4 ℚ := fun i j => if i.val = j.val then 1 else 0

/-- The translation by (0, 0, -5). -/
def sample_translate : Matrix3x4 ℚ :=
  fun i j => if i.val = j.val then 1 else if i = 2 ∧ j = 3 then -5 else 0

/-- A state before `create`: an empty unit and an 800x600 surface. -/
def sample_state : State ℚ where
  self := {}
  vk := { device := 1, descriptor_pool := 2, command_buffer := 3, surface_size := ⟨800, 600⟩ }
  commands := []
  device_calls := []
  live := [1, 2, 3]
  memory := fun _ => ⟨0, 0⟩
  host_writes := []

/-- A driver whose calls all succeed and hand back distinct objects. -/
def sample_driver : Driver where
  mapped_buffer := { handle := 10 }
  mapped_address := 4096
  descriptor_set_layout := 11
  pipeline_layout_result := VK_SUCCESS
  pipeline_layout := 12
  vertex_shader := 13
  fragment_shader := 14
  pipeline := 15
  descriptor_set_result := VK_SUCCESS
  descriptor_set := 16

/-- A default pipeline state with zeroed vertex input arrays. -/
def sample_default_state : Vk_Graphics_Pipeline_State where
  vertex_bindings := fun _ => ⟨0, 0, VK_VERTEX_INPUT_RATE_VERTEX⟩
  vertex_binding_count := 0
  vertex_attributes := fun _ => ⟨0, 0, VK_FORMAT_R32G32_SFLOAT, 0⟩
  vertex_attribute_count := 0
  fixed_function := 0

/-- The state after `create` on the sample state, or the sample state itself
had `create` failed. -/
def sample_created : State ℚ :=
  (Draw_Mesh.create sample_driver sample_default_state sample_state 20 21 22).getD sample_state

/-- A mesh of three triangles. -/
def sample_mesh : GPU_Mesh := { vertex_buffer := ⟨30⟩, index_buffer := ⟨31⟩, index_count := 9 }

/-! ## Lemmas on the matrix product -/

/-- The first three rows of the 4x4 reading are the rows of the transform. -/
theorem to4x4_rows {K : Type} [Field K] (m : Matrix3x4 K) (j : Fin 4) :
    m.to4x4 0 j = m 0 j ∧ m.to4x4 1 j = m 1 j ∧ m.to4x4 2 j = m 2 j :=
  ⟨rfl, rfl, rfl⟩

/-- The last row of the 4x4 reading is (0,0,0,1). -/
theorem to4x4_last_row {K : Type} [Field K] (m : Matrix3x4 K) (j : Fin 4) :
    m.to4x4 3 j = if j = 3 then 1 else 0 :=
  rfl

/-- The product with an affine transform is the 4x4 product with its 4x4 reading. -/
theorem mul34_eq_mul {K : Type} [Field K] (m1 : Matrix4x4 K) (m2 : Matrix3x4 K) :
    m1.mul34 m2 = m1 * m2.to4x4 := by
  ext i j
  simp only [Matrix4x4.mul34, Matrix.mul_apply, Fin.sum_univ_four, (to4x4_rows m2 j).1,
    (to4x4_rows m2 j).2.1, (to4x4_rows m2 j).2.2, to4x4_last_row]
  split <;> simp

/-- The matrix `Matrix4x4::identity` is the unit of the 4x4 product. -/
theorem identity_eq_one {K : Type} [Field K] : (Matrix4x4.identity : Matrix4x4 K) = 1 := by
  ext i j
  simp [Matrix4x4.identity, Matrix.one_apply]

/-- What `update` leaves at the address of the mapped buffer. -/
theorem update_memory_self {K : Type} [Field K] (lib : MathLib K) (s : State K)
    (M V : Matrix3x4 K) :
    (Draw_Mesh.update lib s M V).memory s.self.mapped_uniform_buffer =
      { model_view_proj := lib.perspective_transform_opengl_z01 (lib.radians 45)
          ((s.vk.surface_size.width : K) / (s.vk.surface_size.height : K)) (1 / 10) 50 *
          V.to4x4 * M.to4x4
        model_view := V.to4x4 * M.to4x4 } := by
  simp [Draw_Mesh.update, State.store, Uniform_Buffer.store, mul34_eq_mul, identity_eq_one]

/-- The operation `update` changes nothing but the memory contents. -/
theorem update_frame {K : Type} [Field K] (lib : MathLib K) (s : State K)
    (M V : Matrix3x4 K) :
    (Draw_Mesh.update lib s M V).self = s.self ∧
    (Draw_Mesh.update lib s M V).vk = s.vk ∧
    (Draw_Mesh.update lib s M V).commands = s.commands ∧
    (Draw_Mesh.update lib s M V).device_calls = s.device_calls ∧
    (Draw_Mesh.update lib s M V).live = s.live := by
  simp [Draw_Mesh.update, State.store]

/-- Memory away from the mapped buffer is not touched by `update`. -/
theorem update_memory_other {K : Type} [Field K] (lib : MathLib K) (s : State K)
    (M V : Matrix3x4 K) (p : Ptr) (hp : p ≠ s.self.mapped_uniform_buffer) :
    (Draw_Mesh.update lib s M V).memory p = s.memory p := by
  simp [Draw_Mesh.update, State.store, Function.update_noteq hp]

/-- The host stores `update` makes, after those already made: the two members
of the `Uniform_Buffer` at the mapped address, `model_view_proj` first. -/
theorem update_host_writes {K : Type} [Field K] (lib : MathLib K) (s : State K)
    (M V : Matrix3x4 K) :
    (Draw_Mesh.update lib s M V).host_writes = s.host_writes ++
      [⟨s.self.mapped_uniform_buffer, Uniform_Buffer_Member.model_view_proj.offsetof,
          Uniform_Buffer_Member.model_view_proj.sizeof⟩,
       ⟨s.self.mapped_uniform_buffer, Uniform_Buffer_Member.model_view.offsetof,
          Uniform_Buffer_Member.model_view.sizeof⟩] := by
  simp [Draw_Mesh.update, State.store]

/-! ## Lemmas on dispatch and destroy -/

/-- The commands `dispatch` records, after those already recorded. -/
theorem dispatch_commands {K : Type} (s : State K) (mesh : GPU_Mesh) (show_texture_lod : Bool) :
    (Draw_Mesh.dispatch s mesh show_texture_lod).commands = s.commands ++
      [(s.vk.command_buffer, .vkCmdBindVertexBuffers 0 1 [mesh.vertex_buffer.handle] [0]),
       (s.vk.command_buffer, .vkCmdBindIndexBuffer mesh.index_buffer.handle 0
          VK_INDEX_TYPE_UINT32),
       (s.vk.command_buffer, .vkCmdPushConstants s.self.pipeline_layout
          VK_SHADER_STAGE_FRAGMENT_BIT 0 4 [if show_texture_lod then 1 else 0]),
       (s.vk.command_buffer, .vkCmdBindDescriptorSets VK_PIPELINE_BIND_POINT_GRAPHICS
          s.self.pipeline_layout 0 1 [s.self.descriptor_set] 0 []),
       (s.vk.command_buffer, .vkCmdBindPipeline VK_PIPELINE_BIND_POINT_GRAPHICS s.self.pipeline),
       (s.vk.command_buffer, .vkCmdDrawIndexed mesh.index_count 1 0 0 0)] := by
  cases show_texture_lod <;> simp [Draw_Mesh.dispatch, State.record, bool_to_uint32]

/-- The operation `dispatch` changes nothing but the recorded commands. -/
theorem dispatch_frame {K : Type} (s : State K) (mesh : GPU_Mesh) (show_texture_lod : Bool) :
    (Draw_Mesh.dispatch s mesh show_texture_lod).self = s.self ∧
    (Draw_Mesh.dispatch s mesh show_texture_lod).vk = s.vk ∧
    (Draw_Mesh.dispatch s mesh show_texture_lod).memory = s.memory ∧
    (Draw_Mesh.dispatch s mesh show_texture_lod).device_calls = s.device_calls ∧
    (Draw_Mesh.dispatch s mesh show_texture_lod).live = s.live := by
  simp [Draw_Mesh.dispatch, State.record]

/-- The unit after `destroy`. -/
theorem destroy_self {K : Type} (s : State K) : (Draw_Mesh.destroy s).self = {} := by
  simp [Draw_Mesh.destroy]

/-- The device calls `destroy` makes, after those already made. -/
theorem destroy_calls {K : Type} (s : State K) :
    (Draw_Mesh.destroy s).device_calls = s.device_calls ++
      [.destroy_buffer s.self.uniform_buffer.handle,
       .vkDestroyDescriptorSetLayout s.vk.device s.self.descriptor_set_layout,
       .vkDestroyPipelineLayout s.vk.device s.self.pipeline_layout,
       .vkDestroyPipeline s.vk.device s.self.pipeline] := by
  simp [Draw_Mesh.destroy, Vk_Buffer.destroy, State.call]

/-- The operation `destroy` leaves the context, the commands and memory alone. -/
theorem destroy_frame {K : Type} (s : State K) :
    (Draw_Mesh.destroy s).vk = s.vk ∧
    (Draw_Mesh.destroy s).commands = s.commands ∧
    (Draw_Mesh.destroy s).memory = s.memory := by
  simp [Draw_Mesh.destroy, Vk_Buffer.destroy, State.call]

/-- On an empty unit `destroy` releases nothing. -/
theorem destroy_live_of_empty {K : Type} (s : State K) (h : s.self = {}) :
    (Draw_Mesh.destroy s).live = s.live := by
  simp [Draw_Mesh.destroy, Vk_Buffer.destroy, State.call, DeviceCall.released, h]

/-! ## Lemmas on create -/

/-- When both checked calls succeed `create` returns, with the unit holding the
objects the device handed back and the device calls of `create_calls` made. -/
theorem create_returns {K : Type} (drv : Driver) (default_state : Vk_Graphics_Pipeline_State)
    (s : State K) (render_pass texture_view sampler : Handle)
    (h1 : drv.pipeline_layout_result = VK_SUCCESS)
    (h2 : drv.descriptor_set_result = VK_SUCCESS) :
    ∃ t, Draw_Mesh.create drv default_state s render_pass texture_view sampler = some t ∧
      t.self = { uniform_buffer := drv.mapped_buffer
                 mapped_uniform_buffer := drv.mapped_address
                 descriptor_set_layout := drv.descriptor_set_layout
                 pipeline_layout := drv.pipeline_layout
                 pipeline := drv.pipeline
                 descriptor_set := drv.descriptor_set } ∧
      t.vk = s.vk ∧ t.commands = s.commands ∧ t.memory = s.memory ∧
      t.device_calls = s.device_calls ++
        create_calls drv default_state s.vk render_pass texture_view sampler := by
  simp [Draw_Mesh.create, create_uniform_buffer, create_descriptor_set_layout,
    create_pipeline_layout, create_pipeline, create_descriptor_sets, VK_CHECK, h1, h2,
    VK_SUCCESS, State.call, State.acquire, State.assign, Descriptor_Set_Layout.create,
    Descriptor_Set_Layout.uniform_buffer, Descriptor_Set_Layout.sampled_image,
    Descriptor_Set_Layout.sampler, Descriptor_Writes.uniform_buffer,
    Descriptor_Writes.sampled_image, Descriptor_Writes.sampler, Descriptor_Writes.commit,
    create_calls]

/-- A failed checked call makes `create` fail. -/
theorem create_fails {K : Type} (drv : Driver) (default_state : Vk_Graphics_Pipeline_State)
    (s : State K) (render_pass texture_view sampler : Handle)
    (h : drv.pipeline_layout_result < 0 ∨ drv.descriptor_set_result < 0) :
    Draw_Mesh.create drv default_state s render_pass texture_view sampler = none := by
  by_cases h1 : drv.pipeline_layout_result < 0
  · simp [Draw_Mesh.create, create_pipeline_layout, VK_CHECK, h1]
  · have h2 : drv.descriptor_set_result < 0 := h.resolve_left h1
    simp [Draw_Mesh.create, create_pipeline_layout, create_descriptor_sets, VK_CHECK, h1, h2]

/-- The vertex buffer bindings and attributes of the vertex input state. -/
theorem vertex_input_state_lists (default_state : Vk_Graphics_Pipeline_State) :
    (vertex_input_state default_state).bindings =
      [⟨0, sizeof_Vertex, VK_VERTEX_INPUT_RATE_VERTEX⟩] ∧
    (vertex_input_state default_state).attributes =
      [⟨0, 0, VK_FORMAT_R32G32B32_SFLOAT, 0⟩, ⟨1, 0, VK_FORMAT_R32G32B32_SFLOAT, 12⟩,
       ⟨2, 0, VK_FORMAT_R32G32_SFLOAT, 24⟩] := by
  constructor <;>
    simp [vertex_input_state, Vk_Graphics_Pipeline_State.bindings,
      Vk_Graphics_Pipeline_State.attributes, Vk_Graphics_Pipeline_State.set_binding,
      Vk_Graphics_Pipeline_State.set_attribute, List.range_succ, Function.update]

/-- The rest of the default pipeline state is kept by `vertex_input_state`. -/
theorem vertex_input_state_fixed (default_state : Vk_Graphics_Pipeline_State) :
    (vertex_input_state default_state).fixed_function = default_state.fixed_function := by
  simp [vertex_input_state, Vk_Graphics_Pipeline_State.set_binding,
    Vk_Graphics_Pipeline_State.set_attribute]

/-! ## The per-frame operations -/

/-- C1: for every model transform M and view transform V, every surface size
with positive width and height, and whatever the mapped buffer held before,
`update` leaves the buffer with model_view = V*M and model_view_proj = P*V*M,
where the 3x4 transforms are read as 4x4 matrices with last row (0,0,0,1) and P
is the projection for 45 degrees, the aspect ratio of the surface size at the
time of the call, near 0.1 and far 50. A second call after the surface changed
size writes the projection of the new size, and neither call touches the unit
(the pipeline among it) or the device. -/
theorem update_writes_view_model_and_projection {K : Type} [Field K] (lib : MathLib K)
    (s : State K) (M V : Matrix3x4 K) (size size2 : VkExtent2D)
    (_hw : 0 < size.width) (_hh : 0 < size.height)
    (_hw2 : 0 < size2.width) (_hh2 : 0 < size2.height) :
    ((Draw_Mesh.update lib (s.resize size) M V).memory s.self.mapped_uniform_buffer).model_view
      = V.to4x4 * M.to4x4 ∧
    ((Draw_Mesh.update lib (s.resize size) M V).memory
        s.self.mapped_uniform_buffer).model_view_proj
      = lib.perspective_transform_opengl_z01 (lib.radians 45)
          ((size.width : K) / (size.height : K)) (1 / 10) 50 * V.to4x4 * M.to4x4 ∧
    ((Draw_Mesh.update lib ((Draw_Mesh.update lib (s.resize size) M V).resize size2) M V).memory
        s.self.mapped_uniform_buffer).model_view_proj
      = lib.perspective_transform_opengl_z01 (lib.radians 45)
          ((size2.width : K) / (size2.height : K)) (1 / 10) 50 * V.to4x4 * M.to4x4 ∧
    (Draw_Mesh.update lib ((Draw_Mesh.update lib (s.resize size) M V).resize size2) M V).self
      = s.self ∧
    (Draw_Mesh.update lib ((Draw_Mesh.update lib (s.resize size) M V).resize size2) M V).device_calls
      = s.device_calls := by
  have e1 := update_memory_self lib (s.resize size) M V
  have e2 := update_memory_self lib ((Draw_Mesh.update lib (s.resize size) M V).resize size2) M V
  have f1 := update_frame lib (s.resize size) M V
  have f2 := update_frame lib ((Draw_Mesh.update lib (s.resize size) M V).resize size2) M V
  have r1 : (s.resize size).self = s.self := rfl
  have r2 : ((Draw_Mesh.update lib (s.resize size) M V).resize size2).self = s.self := by
    rw [← r1, ← f1.1]; rfl
  rw [r1] at e1
  rw [r2] at e2
  refine ⟨by rw [e1], by rw [e1]; rfl, by rw [e2]; rfl, by rw [f2.1, r2], ?_⟩
  rw [f2.2.2.2.1]
  exact f1.2.2.2.1

/-- The theorem of C1 on the sample unit: identity model transform, view
translated by (0,0,-5), the surface going from 800x600 to 1024x768. -/
theorem update_writes_view_model_and_projection_witness :
    (0 < (⟨800, 600⟩ : VkExtent2D).width ∧ 0 < (⟨800, 600⟩ : VkExtent2D).height ∧
     0 < (⟨1024, 768⟩ : VkExtent2D).width ∧ 0 < (⟨1024, 768⟩ : VkExtent2D).height) ∧
    ((Draw_Mesh.update sample_lib (sample_created.resize ⟨800, 600⟩) sample_identity
        sample_translate).memory sample_created.self.mapped_uniform_buffer).model_view
      = sample_translate.to4x4 * sample_identity.to4x4 :=
  ⟨⟨by decide, by decide, by decide, by decide⟩,
   (update_writes_view_model_and_projection sample_lib sample_created sample_identity
      sample_translate ⟨800, 600⟩ ⟨1024, 768⟩ (by decide) (by decide) (by decide)
      (by decide)).1⟩

/-- C2: for every unit state, mesh and flag, `dispatch` appends exactly six
commands to the command stream, in this order: bind the vertex buffer of the
mesh at binding 0 with offset 0; bind its index buffer with offset 0 and 32-bit
indices; push constants; bind the descriptor set of the unit at set index 0 on
the graphics bind point; bind the pipeline of the unit on the graphics bind
point; indexed draw of `index_count` indices, one instance, all offsets 0. After
any `update`, `dispatch` with the flag off records this sequence with pushed
constant 0. -/
theorem dispatch_records_six_commands {K : Type} [Field K] (s : State K) (mesh : GPU_Mesh)
    (show_texture_lod : Bool) :
    (Draw_Mesh.dispatch s mesh show_texture_lod).commands = s.commands ++
      [(s.vk.command_buffer, .vkCmdBindVertexBuffers 0 1 [mesh.vertex_buffer.handle] [0]),
       (s.vk.command_buffer, .vkCmdBindIndexBuffer mesh.index_buffer.handle 0
          VK_INDEX_TYPE_UINT32),
       (s.vk.command_buffer, .vkCmdPushConstants s.self.pipeline_layout
          VK_SHADER_STAGE_FRAGMENT_BIT 0 4 [if show_texture_lod then 1 else 0]),
       (s.vk.command_buffer, .vkCmdBindDescriptorSets VK_PIPELINE_BIND_POINT_GRAPHICS
          s.self.pipeline_layout 0 1 [s.self.descriptor_set] 0 []),
       (s.vk.command_buffer, .vkCmdBindPipeline VK_PIPELINE_BIND_POINT_GRAPHICS s.self.pipeline),
       (s.vk.command_buffer, .vkCmdDrawIndexed mesh.index_count 1 0 0 0)] ∧
    ∀ (lib : MathLib K) (M V : Matrix3x4 K),
      (Draw_Mesh.dispatch (Draw_Mesh.update lib s M V) mesh false).commands = s.commands ++
        [(s.vk.command_buffer, .vkCmdBindVertexBuffers 0 1 [mesh.vertex_buffer.handle] [0]),
         (s.vk.command_buffer, .vkCmdBindIndexBuffer mesh.index_buffer.handle 0
            VK_INDEX_TYPE_UINT32),
         (s.vk.command_buffer, .vkCmdPushConstants s.self.pipeline_layout
            VK_SHADER_STAGE_FRAGMENT_BIT 0 4 [0]),
         (s.vk.command_buffer, .vkCmdBindDescriptorSets VK_PIPELINE_BIND_POINT_GRAPHICS
            s.self.pipeline_layout 0 1 [s.self.descriptor_set] 0 []),
         (s.vk.command_buffer, .vkCmdBindPipeline VK_PIPELINE_BIND_POINT_GRAPHICS
            s.self.pipeline),
         (s.vk.command_buffer, .vkCmdDrawIndexed mesh.index_count 1 0 0 0)] := by
  refine ⟨dispatch_commands s mesh show_texture_lod, fun lib M V => ?_⟩
  have f := update_frame lib s M V
  rw [dispatch_commands, f.1, f.2.1, f.2.2.1]
  rfl

/-- C3: for every mesh and unit state, `dispatch` records one push-constant
update, of the fragment stage at offset 0 with size 4, and the 32-bit word it
carries is 0 when `show_texture_lod` is false and 1 when it is true. -/
theorem dispatch_pushes_flag {K : Type} (s : State K) (mesh : GPU_Mesh) :
    pushed_constants (new_commands s (Draw_Mesh.dispatch s mesh false)) =
      [(s.self.pipeline_layout, VK_SHADER_STAGE_FRAGMENT_BIT, 0, 4, [0])] ∧
    pushed_constants (new_commands s (Draw_Mesh.dispatch s mesh true)) =
      [(s.self.pipeline_layout, VK_SHADER_STAGE_FRAGMENT_BIT, 0, 4, [1])] := by
  constructor <;> simp [new_commands, dispatch_commands, pushed_constants]

/-- C8: `update` changes only the contents of the mapped uniform memory: every
member of the unit, the global context, the command stream, the device and the
memory at every other address are as before. `dispatch` leaves the unit, the
context, the device and all of memory as before, and the command stream after
it starts with the command stream before it; it stores nothing to memory. -/
theorem update_and_dispatch_frame {K : Type} [Field K] (lib : MathLib K) (s : State K)
    (M V : Matrix3x4 K) (mesh : GPU_Mesh) (show_texture_lod : Bool) :
    ((Draw_Mesh.update lib s M V).self = s.self ∧
     (Draw_Mesh.update lib s M V).vk = s.vk ∧
     (Draw_Mesh.update lib s M V).commands = s.commands ∧
     (Draw_Mesh.update lib s M V).device_calls = s.device_calls ∧
     (Draw_Mesh.update lib s M V).live = s.live ∧
     ∀ p : Ptr, p ≠ s.self.mapped_uniform_buffer →
       (Draw_Mesh.update lib s M V).memory p = s.memory p) ∧
    ((Draw_Mesh.dispatch s mesh show_texture_lod).self = s.self ∧
     (Draw_Mesh.dispatch s mesh show_texture_lod).vk = s.vk ∧
     (Draw_Mesh.dispatch s mesh show_texture_lod).memory = s.memory ∧
     (Draw_Mesh.dispatch s mesh show_texture_lod).device_calls = s.device_calls ∧
     (Draw_Mesh.dispatch s mesh show_texture_lod).live = s.live ∧
     (Draw_Mesh.dispatch s mesh show_texture_lod).host_writes = s.host_writes ∧
     s.commands <+: (Draw_Mesh.dispatch s mesh show_texture_lod).commands) := by
  have fu := update_frame lib s M V
  have fd := dispatch_frame s mesh show_texture_lod
  refine ⟨⟨fu.1, fu.2.1, fu.2.2.1, fu.2.2.2.1, fu.2.2.2.2,
    fun p hp => update_memory_other lib s M V p hp⟩,
    ⟨fd.1, fd.2.1, fd.2.2.1, fd.2.2.2.1, fd.2.2.2.2,
      by simp [Draw_Mesh.dispatch, State.record], ?_⟩⟩
  rw [dispatch_commands]
  exact List.prefix_append _ _

/-! ## Teardown -/

/-- C4: for every unit state, and so for the state `create` produces from any
render pass, texture view and sampler, `destroy` leaves the unit equal to a
default-constructed `Draw_Mesh`: the uniform buffer, the mapped pointer, the
descriptor set layout, the pipeline layout, the pipeline and the descriptor set
are all null. -/
theorem destroy_resets_unit {K : Type} (s : State K) :
    (Draw_Mesh.destroy s).self = ({} : Draw_Mesh) ∧
    (Draw_Mesh.destroy s).self.uniform_buffer.handle = VK_NULL_HANDLE ∧
    (Draw_Mesh.destroy s).self.mapped_uniform_buffer = nullptr ∧
    (Draw_Mesh.destroy s).self.descriptor_set_layout = VK_NULL_HANDLE ∧
    (Draw_Mesh.destroy s).self.pipeline_layout = VK_NULL_HANDLE ∧
    (Draw_Mesh.destroy s).self.pipeline = VK_NULL_HANDLE ∧
    (Draw_Mesh.destroy s).self.descriptor_set = VK_NULL_HANDLE ∧
    ∀ (drv : Driver) (default_state : Vk_Graphics_Pipeline_State)
      (render_pass texture_view sampler : Handle) (t : State K),
      Draw_Mesh.create drv default_state s render_pass texture_view sampler = some t →
      (Draw_Mesh.destroy t).self = ({} : Draw_Mesh) := by
  have h := destroy_self s
  refine ⟨h, ?_, ?_, ?_, ?_, ?_, ?_, fun _ _ _ _ _ t _ => destroy_self t⟩ <;> rw [h]

/-- C5: for every unit state, a second `destroy` right after the first leaves
the unit, the context, the commands, memory and the live device objects as the
first left them; the four calls it makes are all given the null handle, so it
releases no object, and in particular none that the first call released. -/
theorem destroy_twice {K : Type} (s : State K) :
    (Draw_Mesh.destroy (Draw_Mesh.destroy s)).self = (Draw_Mesh.destroy s).self ∧
    (Draw_Mesh.destroy (Draw_Mesh.destroy s)).live = (Draw_Mesh.destroy s).live ∧
    (Draw_Mesh.destroy (Draw_Mesh.destroy s)).vk = (Draw_Mesh.destroy s).vk ∧
    (Draw_Mesh.destroy (Draw_Mesh.destroy s)).commands = (Draw_Mesh.destroy s).commands ∧
    (Draw_Mesh.destroy (Draw_Mesh.destroy s)).memory = (Draw_Mesh.destroy s).memory ∧
    new_calls (Draw_Mesh.destroy s) (Draw_Mesh.destroy (Draw_Mesh.destroy s)) =
      [.destroy_buffer VK_NULL_HANDLE,
       .vkDestroyDescriptorSetLayout s.vk.device VK_NULL_HANDLE,
       .vkDestroyPipelineLayout s.vk.device VK_NULL_HANDLE,
       .vkDestroyPipeline s.vk.device VK_NULL_HANDLE] ∧
    (∀ c ∈ new_calls (Draw_Mesh.destroy s) (Draw_Mesh.destroy (Draw_Mesh.destroy s)),
      c.released = none) ∧
    ∀ h : Handle, some h ∈ (new_calls s (Draw_Mesh.destroy s)).map DeviceCall.released →
      some h ∉ (new_calls (Draw_Mesh.destroy s)
        (Draw_Mesh.destroy (Draw_Mesh.destroy s))).map DeviceCall.released := by
  have h1 := destroy_self s
  have f2 := destroy_frame (Draw_Mesh.destroy s)
  have f1 := destroy_frame s
  have hc : new_calls (Draw_Mesh.destroy s) (Draw_Mesh.destroy (Draw_Mesh.destroy s)) =
      [.destroy_buffer VK_NULL_HANDLE,
       .vkDestroyDescriptorSetLayout s.vk.device VK_NULL_HANDLE,
       .vkDestroyPipelineLayout s.vk.device VK_NULL_HANDLE,
       .vkDestroyPipeline s.vk.device VK_NULL_HANDLE] := by
    rw [new_calls, destroy_calls (Draw_Mesh.destroy s), List.drop_left, h1, f1.1]
  refine ⟨by rw [destroy_self, destroy_self], destroy_live_of_empty _ h1, f2.1, f2.2.1,
    f2.2.2, hc, ?_, ?_⟩
  · rw [hc]
    intro c hmem
    simp only [List.mem_cons, List.mem_singleton, List.not_mem_nil, or_false] at hmem
    rcases hmem with rfl | rfl | rfl | rfl <;> simp [DeviceCall.released]
  · intro h _
    rw [hc]
    simp [DeviceCall.released]

/-! ## Creation -/

/-- C6: the uniform buffer is 128 bytes, two 64-byte matrices without padding:
model_view_proj at bytes [0,64) and model_view at bytes [64,128). When its
checked calls succeed, `create` returns; the unit holds the mapped buffer and
the mapped address the device handed back, the size requested for that buffer
is `sizeof(Uniform_Buffer)`, and descriptor slot 0 is written with that very
buffer at offset 0 with range `sizeof(Uniform_Buffer)`. In every later state
with the same unit, `update` makes two stores, both at the mapped address: 64
bytes at offset 0 and 64 bytes at offset 64. Every byte stored lies inside the
128 bytes allocated, every one of the 128 bytes is stored to, the buffer then
holds the two matrices of this call, and memory at every other address is as
before. -/
theorem uniform_buffer_layout {K : Type} [Field K] (drv : Driver)
    (default_state : Vk_Graphics_Pipeline_State) (s : State K)
    (render_pass texture_view sampler : Handle)
    (h1 : drv.pipeline_layout_result = VK_SUCCESS)
    (h2 : drv.descriptor_set_result = VK_SUCCESS) :
    sizeof_Uniform_Buffer = 128 ∧
    Uniform_Buffer_Member.model_view_proj.offsetof = 0 ∧
    Uniform_Buffer_Member.model_view_proj.sizeof = 64 ∧
    Uniform_Buffer_Member.model_view.offsetof = 64 ∧
    Uniform_Buffer_Member.model_view.sizeof = 64 ∧
    (∀ m : Uniform_Buffer_Member, m.offsetof + m.sizeof ≤ sizeof_Uniform_Buffer) ∧
    (∀ byte : Nat, byte < sizeof_Uniform_Buffer →
      ∃ m : Uniform_Buffer_Member, m.offsetof ≤ byte ∧ byte < m.offsetof + m.sizeof) ∧
    ∃ t, Draw_Mesh.create drv default_state s render_pass texture_view sampler = some t ∧
      t.self.uniform_buffer = drv.mapped_buffer ∧
      t.self.mapped_uniform_buffer = drv.mapped_address ∧
      mapped_buffer_sizes (new_calls s t) = [sizeof_Uniform_Buffer] ∧
      buffer_ranges (descriptor_writes (new_calls s t)) =
        [(0, drv.mapped_buffer.handle, 0, sizeof_Uniform_Buffer)] ∧
      ∀ (lib : MathLib K) (u : State K) (M V : Matrix3x4 K), u.self = t.self →
        new_host_writes u (Draw_Mesh.update lib u M V) =
          [⟨drv.mapped_address, 0, 64⟩, ⟨drv.mapped_address, 64, 64⟩] ∧
        (∀ w ∈ new_host_writes u (Draw_Mesh.update lib u M V),
          w.address = drv.mapped_address ∧ w.offset + w.size ≤ sizeof_Uniform_Buffer) ∧
        (∀ byte : Nat, byte < sizeof_Uniform_Buffer →
          ∃ w ∈ new_host_writes u (Draw_Mesh.update lib u M V),
            w.offset ≤ byte ∧ byte < w.offset + w.size) ∧
        (Draw_Mesh.update lib u M V).memory drv.mapped_address =
          { model_view_proj := lib.perspective_transform_opengl_z01 (lib.radians 45)
              ((u.vk.surface_size.width : K) / (u.vk.surface_size.height : K)) (1 / 10) 50 *
              V.to4x4 * M.to4x4
            model_view := V.to4x4 * M.to4x4 } ∧
        ∀ p : Ptr, p ≠ drv.mapped_address →
          (Draw_Mesh.update lib u M V).memory p = u.memory p := by
  have hsize : sizeof_Uniform_Buffer = 128 := by decide
  have ho1 : Uniform_Buffer_Member.model_view_proj.offsetof = 0 := by decide
  have hs1 : Uniform_Buffer_Member.model_view_proj.sizeof = 64 := by decide
  have ho2 : Uniform_Buffer_Member.model_view.offsetof = 64 := by decide
  have hs2 : Uniform_Buffer_Member.model_view.sizeof = 64 := by decide
  refine ⟨hsize, ho1, hs1, ho2, hs2, ?_, ?_, ?_⟩
  · intro m
    cases m
    · rw [ho1, hs1, hsize]; decide
    · rw [ho2, hs2, hsize]
  · intro byte hbyte
    rw [hsize] at hbyte
    by_cases hlt : byte < 64
    · exact ⟨.model_view_proj, by rw [ho1]; exact Nat.zero_le _, by rw [ho1, hs1]; omega⟩
    · exact ⟨.model_view, by rw [ho2]; omega, by rw [ho2, hs2]; omega⟩
  · obtain ⟨t, ht, hself, _, _, _, hcalls⟩ :=
      create_returns drv default_state s render_pass texture_view sampler h1 h2
    have hptr : t.self.mapped_uniform_buffer = drv.mapped_address := by rw [hself]
    refine ⟨t, ht, by rw [hself], hptr, ?_, ?_, ?_⟩
    · simp [new_calls, hcalls, create_calls, mapped_buffer_sizes]
    · simp [new_calls, hcalls, create_calls, descriptor_writes, buffer_ranges]
    · intro lib u M V hu
      have hup : u.self.mapped_uniform_buffer = drv.mapped_address := by rw [hu, hptr]
      have hw : new_host_writes u (Draw_Mesh.update lib u M V) =
          [⟨drv.mapped_address, 0, 64⟩, ⟨drv.mapped_address, 64, 64⟩] := by
        rw [new_host_writes, update_host_writes, List.drop_left, hup, ho1, hs1, ho2, hs2]
      refine ⟨hw, ?_, ?_, ?_, ?_⟩
      · intro w hmem
        rw [hw] at hmem
        simp only [List.mem_cons, List.mem_singleton, List.not_mem_nil, or_false] at hmem
        rcases hmem with rfl | rfl <;> simp [hsize]
      · intro byte hbyte
        rw [hsize] at hbyte
        rw [hw]
        by_cases hlt : byte < 64
        · exact ⟨⟨drv.mapped_address, 0, 64⟩, by simp, Nat.zero_le _, by simpa using hlt⟩
        · exact ⟨⟨drv.mapped_address, 64, 64⟩, by simp,
            by simpa using Nat.le_of_not_lt hlt, by show byte < 64 + 64; omega⟩
      · rw [← hup]
        exact update_memory_self lib u M V
      · intro p hp
        rw [← hup] at hp
        exact update_memory_other lib u M V p hp

/-- The theorem of C6 on the sample driver and state: `create` returns with the
mapped buffer of the driver, the size it requested is that of the
`Uniform_Buffer`, and slot 0 is written with that buffer and that range. -/
theorem uniform_buffer_layout_witness :
    sample_driver.pipeline_layout_result = VK_SUCCESS ∧
    sample_driver.descriptor_set_result = VK_SUCCESS ∧
    ∃ t, Draw_Mesh.create sample_driver sample_default_state sample_state 20 21 22 = some t ∧
      t.self.uniform_buffer = sample_driver.mapped_buffer ∧
      t.self.mapped_uniform_buffer = sample_driver.mapped_address ∧
      mapped_buffer_sizes (new_calls sample_state t) = [sizeof_Uniform_Buffer] ∧
      buffer_ranges (descriptor_writes (new_calls sample_state t)) =
        [(0, sample_driver.mapped_buffer.handle, 0, sizeof_Uniform_Buffer)] ∧
      new_host_writes t (Draw_Mesh.update sample_lib t sample_identity sample_translate) =
        [⟨sample_driver.mapped_address, 0, 64⟩, ⟨sample_driver.mapped_address, 64, 64⟩] :=
  ⟨rfl, rfl,
   (uniform_buffer_layout sample_driver sample_default_state sample_state 20 21 22
      rfl rfl).2.2.2.2.2.2.2.imp fun t h =>
        ⟨h.1, h.2.1, h.2.2.1, h.2.2.2.1, h.2.2.2.2.1,
         (h.2.2.2.2.2 sample_lib t sample_identity sample_translate rfl).1⟩⟩

/-- C7: for every render pass, texture view and sampler, when its checked calls
succeed `create` returns, having created one descriptor set layout with three
slots (slot 0 a uniform buffer for the vertex stage, slot 1 a sampled image for
the fragment stage, slot 2 a sampler for the fragment stage), allocated one
descriptor set with the layout object the device handed back for those slots,
and written into the set the device allocated, slot by slot in the order of the
layout and each slot once, a resource of the kind the slot declares: the
uniform buffer the device allocated for the unit, the texture view of the
caller in shader-read-only layout, and the sampler of the caller. The unit
holds that layout, that set and that buffer. -/
theorem create_populates_descriptor_set {K : Type} (drv : Driver)
    (default_state : Vk_Graphics_Pipeline_State) (s : State K)
    (render_pass texture_view sampler : Handle)
    (h1 : drv.pipeline_layout_result = VK_SUCCESS)
    (h2 : drv.descriptor_set_result = VK_SUCCESS) :
    ∃ t, Draw_Mesh.create drv default_state s render_pass texture_view sampler = some t ∧
      t.self.descriptor_set_layout = drv.descriptor_set_layout ∧
      t.self.descriptor_set = drv.descriptor_set ∧
      t.self.uniform_buffer = drv.mapped_buffer ∧
      set_layouts_created (new_calls s t) =
        [[⟨0, VK_DESCRIPTOR_TYPE_UNIFORM_BUFFER, 1, VK_SHADER_STAGE_VERTEX_BIT⟩,
          ⟨1, VK_DESCRIPTOR_TYPE_SAMPLED_IMAGE, 1, VK_SHADER_STAGE_FRAGMENT_BIT⟩,
          ⟨2, VK_DESCRIPTOR_TYPE_SAMPLER, 1, VK_SHADER_STAGE_FRAGMENT_BIT⟩]] ∧
      descriptor_set_allocations (new_calls s t) =
        [⟨s.vk.descriptor_pool, 1, [drv.descriptor_set_layout]⟩] ∧
      descriptor_writes (new_calls s t) =
        [⟨drv.descriptor_set, 0, 1, VK_DESCRIPTOR_TYPE_UNIFORM_BUFFER,
            .buffer_info drv.mapped_buffer.handle 0 sizeof_Uniform_Buffer⟩,
         ⟨drv.descriptor_set, 1, 1, VK_DESCRIPTOR_TYPE_SAMPLED_IMAGE,
            .image_info texture_view VK_IMAGE_LAYOUT_SHADER_READ_ONLY_OPTIMAL⟩,
         ⟨drv.descriptor_set, 2, 1, VK_DESCRIPTOR_TYPE_SAMPLER, .sampler_info sampler⟩] ∧
      (∀ bindings ∈ set_layouts_created (new_calls s t),
        (descriptor_writes (new_calls s t)).map (fun w => (w.dstBinding, w.descriptorType)) =
          bindings.map (fun b => (b.binding, b.descriptorType))) ∧
      (∀ w ∈ descriptor_writes (new_calls s t),
        w.info.kind = w.descriptorType ∧ w.dstSet = drv.descriptor_set) ∧
      ((descriptor_writes (new_calls s t)).map (fun w => w.dstBinding)).Nodup := by
  obtain ⟨t, ht, hself, _, _, _, hcalls⟩ :=
    create_returns drv default_state s render_pass texture_view sampler h1 h2
  have hl : set_layouts_created (new_calls s t) =
      [[⟨0, VK_DESCRIPTOR_TYPE_UNIFORM_BUFFER, 1, VK_SHADER_STAGE_VERTEX_BIT⟩,
        ⟨1, VK_DESCRIPTOR_TYPE_SAMPLED_IMAGE, 1, VK_SHADER_STAGE_FRAGMENT_BIT⟩,
        ⟨2, VK_DESCRIPTOR_TYPE_SAMPLER, 1, VK_SHADER_STAGE_FRAGMENT_BIT⟩]] := by
    simp [new_calls, hcalls, create_calls, set_layouts_created]
  have hw : descriptor_writes (new_calls s t) =
      [⟨drv.descriptor_set, 0, 1, VK_DESCRIPTOR_TYPE_UNIFORM_BUFFER,
          .buffer_info drv.mapped_buffer.handle 0 sizeof_Uniform_Buffer⟩,
       ⟨drv.descriptor_set, 1, 1, VK_DESCRIPTOR_TYPE_SAMPLED_IMAGE,
          .image_info texture_view VK_IMAGE_LAYOUT_SHADER_READ_ONLY_OPTIMAL⟩,
       ⟨drv.descriptor_set, 2, 1, VK_DESCRIPTOR_TYPE_SAMPLER, .sampler_info sampler⟩] := by
    simp [new_calls, hcalls, create_calls, descriptor_writes]
  refine ⟨t, ht, by rw [hself], by rw [hself], by rw [hself], hl, ?_, hw,
    ?_, ?_, ?_⟩
  · simp [new_calls, hcalls, create_calls, descriptor_set_allocations]
  · rw [hl, hw]
    simp
  · rw [hw]
    simp [Descriptor_Info.kind]
  · rw [hw]
    simp

/-- The theorem of C7 on the sample driver and state: `create` returns, the
unit holds the set and the buffer of the driver, and the three writes go to
slots 0, 1 and 2 of that set. -/
theorem create_populates_descriptor_set_witness :
    sample_driver.pipeline_layout_result = VK_SUCCESS ∧
    sample_driver.descriptor_set_result = VK_SUCCESS ∧
    ∃ t, Draw_Mesh.create sample_driver sample_default_state sample_state 20 21 22 = some t ∧
      t.self.descriptor_set = 16 ∧
      t.self.uniform_buffer = ⟨10⟩ ∧
      descriptor_writes (new_calls sample_state t) =
        [⟨16, 0, 1, VK_DESCRIPTOR_TYPE_UNIFORM_BUFFER, .buffer_info 10 0 sizeof_Uniform_Buffer⟩,
         ⟨16, 1, 1, VK_DESCRIPTOR_TYPE_SAMPLED_IMAGE,
            .image_info 21 VK_IMAGE_LAYOUT_SHADER_READ_ONLY_OPTIMAL⟩,
         ⟨16, 2, 1, VK_DESCRIPTOR_TYPE_SAMPLER, .sampler_info 22⟩] :=
  ⟨rfl, rfl,
   (create_populates_descriptor_set sample_driver sample_default_state sample_state 20 21 22
      rfl rfl).imp fun _ h => ⟨h.1, h.2.2.1, h.2.2.2.1, h.2.2.2.2.2.2.1⟩⟩

/-- C9: when its checked calls succeed `create` returns, having built one
pipeline, with one vertex buffer binding (binding 0, per-vertex rate, stride 32
bytes, the size of the vertex record) and three attributes, all on binding 0:
location 0 with three float32 at offset 0, location 1 with three float32 at
offset 12, location 2 with two float32 at offset 24. Each attribute starts
where the one before ends and the last ends at the stride. -/
theorem create_vertex_input_layout {K : Type} (drv : Driver)
    (default_state : Vk_Graphics_Pipeline_State) (s : State K)
    (render_pass texture_view sampler : Handle)
    (h1 : drv.pipeline_layout_result = VK_SUCCESS)
    (h2 : drv.descriptor_set_result = VK_SUCCESS) :
    ∃ t, Draw_Mesh.create drv default_state s render_pass texture_view sampler = some t ∧
      (pipelines_created (new_calls s t)).map (fun st => (st.bindings, st.attributes)) =
        [([⟨0, 32, VK_VERTEX_INPUT_RATE_VERTEX⟩],
          [⟨0, 0, VK_FORMAT_R32G32B32_SFLOAT, 0⟩, ⟨1, 0, VK_FORMAT_R32G32B32_SFLOAT, 12⟩,
           ⟨2, 0, VK_FORMAT_R32G32_SFLOAT, 24⟩])] ∧
      sizeof_Vertex = 32 ∧
      ∀ st ∈ pipelines_created (new_calls s t),
        st.attributes.map (fun a => a.offset) = [0, 12, 24] ∧
        st.attributes.map (fun a => a.offset + a.format.texel_size) = [12, 24, 32] ∧
        st.bindings.map (fun b => b.stride) = [32] := by
  obtain ⟨t, ht, _, _, _, _, hcalls⟩ :=
    create_returns drv default_state s render_pass texture_view sampler h1 h2
  have hv : sizeof_Vertex = 32 := by decide
  have hp : pipelines_created (new_calls s t) = [vertex_input_state default_state] := by
    simp [new_calls, hcalls, create_calls, pipelines_created]
  have hl := vertex_input_state_lists default_state
  rw [hv] at hl
  refine ⟨t, ht, ?_, hv, ?_⟩
  · rw [hp]
    simp [hl.1, hl.2]
  · intro st hst
    rw [hp, List.mem_singleton] at hst
    subst hst
    rw [hl.1, hl.2]
    simp [VkFormat.texel_size]

/-- The theorem of C9 on the sample driver and state: `create` returns and the
pipeline it builds has the 32-byte binding and the three attributes. -/
theorem create_vertex_input_layout_witness :
    sample_driver.pipeline_layout_result = VK_SUCCESS ∧
    sample_driver.descriptor_set_result = VK_SUCCESS ∧
    ∃ t, Draw_Mesh.create sample_driver sample_default_state sample_state 20 21 22 = some t ∧
      (pipelines_created (new_calls sample_state t)).map
          (fun st => (st.bindings, st.attributes)) =
        [([⟨0, 32, VK_VERTEX_INPUT_RATE_VERTEX⟩],
          [⟨0, 0, VK_FORMAT_R32G32B32_SFLOAT, 0⟩, ⟨1, 0, VK_FORMAT_R32G32B32_SFLOAT, 12⟩,
           ⟨2, 0, VK_FORMAT_R32G32_SFLOAT, 24⟩])] :=
  ⟨rfl, rfl,
   (create_vertex_input_layout sample_driver sample_default_state sample_state 20 21 22
      rfl rfl).imp fun _ h => ⟨h.1, h.2.1⟩⟩

/-- C10: when its checked calls succeed `create` returns, having created one
pipeline layout, with one descriptor set layout (the one the unit holds) and one
push-constant range (fragment stage, offset 0, size 4), and the unit holds the
handle the device handed back for it. In every later state with the same unit,
`dispatch` records one push-constant update and one descriptor set bind, both
with that pipeline layout; the update has the stage flags of the declared range
and its bytes [0,4) lie inside the declared range. -/
theorem dispatch_push_matches_pipeline_layout {K : Type} (drv : Driver)
    (default_state : Vk_Graphics_Pipeline_State) (s : State K)
    (render_pass texture_view sampler : Handle)
    (h1 : drv.pipeline_layout_result = VK_SUCCESS)
    (h2 : drv.descriptor_set_result = VK_SUCCESS) :
    ∃ t, Draw_Mesh.create drv default_state s render_pass texture_view sampler = some t ∧
      pipeline_layouts_created (new_calls s t) =
        [⟨1, [t.self.descriptor_set_layout], 1, [⟨VK_SHADER_STAGE_FRAGMENT_BIT, 0, 4⟩]⟩] ∧
      t.self.pipeline_layout = drv.pipeline_layout ∧
      ∀ (u : State K) (mesh : GPU_Mesh) (show_texture_lod : Bool), u.self = t.self →
        descriptor_bind_layouts (new_commands u (Draw_Mesh.dispatch u mesh show_texture_lod)) =
          [t.self.pipeline_layout] ∧
        (pushed_constants (new_commands u (Draw_Mesh.dispatch u mesh show_texture_lod))).map
          (fun c => (c.1, c.2.1, c.2.2.1, c.2.2.2.1)) =
          [(t.self.pipeline_layout, VK_SHADER_STAGE_FRAGMENT_BIT, 0, 4)] ∧
        ∀ info ∈ pipeline_layouts_created (new_calls s t),
          ∀ range ∈ info.pPushConstantRanges,
            ∀ c ∈ pushed_constants (new_commands u (Draw_Mesh.dispatch u mesh show_texture_lod)),
              c.2.1 = range.stageFlags ∧ range.offset ≤ c.2.2.1 ∧
              c.2.2.1 + c.2.2.2.1 ≤ range.offset + range.size ∧
              c.2.2.2.1 = 4 * c.2.2.2.2.length := by
  obtain ⟨t, ht, hself, _, _, _, hcalls⟩ :=
    create_returns drv default_state s render_pass texture_view sampler h1 h2
  have hp : pipeline_layouts_created (new_calls s t) =
      [⟨1, [t.self.descriptor_set_layout], 1, [⟨VK_SHADER_STAGE_FRAGMENT_BIT, 0, 4⟩]⟩] := by
    simp [new_calls, hcalls, create_calls, pipeline_layouts_created, hself]
  refine ⟨t, ht, hp, by rw [hself], ?_⟩
  intro u mesh show_texture_lod hu
  have hpush : pushed_constants (new_commands u (Draw_Mesh.dispatch u mesh show_texture_lod)) =
      [(t.self.pipeline_layout, VK_SHADER_STAGE_FRAGMENT_BIT, 0, 4,
        [if show_texture_lod then 1 else 0])] := by
    simp [new_commands, dispatch_commands, pushed_constants, hu]
  refine ⟨?_, ?_, ?_⟩
  · simp [new_commands, dispatch_commands, descriptor_bind_layouts, hu]
  · rw [hpush]
    rfl
  · intro info hinfo range hrange c hc
    rw [hp, List.mem_singleton] at hinfo
    subst hinfo
    rw [List.mem_singleton] at hrange
    subst hrange
    rw [hpush, List.mem_singleton] at hc
    subst hc
    simp

/-- The theorem of C10 on the sample driver and state: `create` returns with
the pipeline layout declaring the fragment range of four bytes at offset 0. -/
theorem dispatch_push_matches_pipeline_layout_witness :
    sample_driver.pipeline_layout_result = VK_SUCCESS ∧
    sample_driver.descriptor_set_result = VK_SUCCESS ∧
    ∃ t, Draw_Mesh.create sample_driver sample_default_state sample_state 20 21 22 = some t ∧
      pipeline_layouts_created (new_calls sample_state t) =
        [⟨1, [t.self.descriptor_set_layout], 1, [⟨VK_SHADER_STAGE_FRAGMENT_BIT, 0, 4⟩]⟩] ∧
      t.self.pipeline_layout = sample_driver.pipeline_layout :=
  ⟨rfl, rfl,
   (dispatch_push_matches_pipeline_layout sample_driver sample_default_state sample_state
      20 21 22 rfl rfl).imp fun _ h => ⟨h.1, h.2.1, h.2.2.1⟩⟩

end DrawMesh
